import Mathlib

/-!
Verification development for the Overcooked multi-agent gridworld simulator
(overcooked_env). The data model (constants, enums, Object, PlayerState,
WorldState fields, Config) is embedded from src/overcooked_env/sim.hpp.
Machine integers are modelled as Nat with explicit reductions modulo 2^8
where the source uses uint8_t, and as Int restricted to the int8_t window
where the source uses int8_t. The per-tick transition logic lives in
sim.cpp, which is not part of the supplied sources; those parts are
modelled from the specification and are marked as such in doc comments.
-/

set_option maxRecDepth 16384

namespace Overcooked

/-- NUM_MOVES from sim.hpp. -/
def NUM_MOVES : Nat := 6

/-- MAX_SIZE from sim.hpp: capacity of the per-world grid arrays. -/
def MAX_SIZE : Nat := 256

/-- MAX_NUM_PLAYERS from sim.hpp. -/
def MAX_NUM_PLAYERS : Nat := 2

/-- MAX_NUM_INGREDIENTS from sim.hpp. -/
def MAX_NUM_INGREDIENTS : Nat := 3

/-- NUM_RECIPES from sim.hpp: (MAX_NUM_INGREDIENTS + 1) squared. -/
def NUM_RECIPES : Nat := (MAX_NUM_INGREDIENTS + 1) * (MAX_NUM_INGREDIENTS + 1)

/-- Reduction of a natural number into the uint8_t range, as performed by a
C++ conversion of an int expression to uint8_t. -/
def u8 (n : Nat) : Nat := n % 256

/-- Conversion of a uint8_t value to int8_t, as performed by a C++
assignment of a uint8_t expression to an int8_t field (modular wrap). -/
def i8ofU8 (n : Nat) : Int :=
  if n % 256 < 128 then ((n % 256 : Nat) : Int) else ((n % 256 : Nat) : Int) - 256

/-- enum ActionT from sim.hpp. -/
inductive ActionT : Type where
  | NORTH
  | SOUTH
  | EAST
  | WEST
  | STAY
  | INTERACT
deriving DecidableEq

/-- enum TerrainT from sim.hpp. -/
inductive TerrainT : Type where
  | AIR
  | POT
  | COUNTER
  | ONION_SOURCE
  | TOMATO_SOURCE
  | DISH_SOURCE
  | SERVING
deriving DecidableEq

/-- enum ObjectT from sim.hpp. -/
inductive ObjectT : Type where
  | NONE
  | TOMATO
  | ONION
  | DISH
  | SOUP
deriving DecidableEq

/-- struct Object from sim.hpp: name ObjectT, num_onions and num_tomatoes
uint8_t (modelled as Nat kept below 256 by u8 at every write), cooking_tick
int8_t (modelled as Int in the int8 window, sentinel -1). -/
structure Object : Type where
  name : ObjectT := ObjectT.NONE
  num_onions : Nat := 0
  num_tomatoes : Nat := 0
  cooking_tick : Int := -1
deriving DecidableEq

/-- Object::num_ingredients from sim.hpp: uint8_t return of the int sum. -/
def Object.num_ingredients (o : Object) : Nat :=
  u8 (o.num_onions + o.num_tomatoes)

/-- Object::get_recipe from sim.hpp: uint8_t return of
(MAX_NUM_INGREDIENTS + 1) * num_onions + num_tomatoes. -/
def Object.get_recipe (o : Object) : Nat :=
  u8 ((MAX_NUM_INGREDIENTS + 1) * o.num_onions + o.num_tomatoes)

/-- The Object a PlayerState holds after remove_object in sim.hpp: name
NONE, zero ingredient counts, cooking_tick -1. -/
def emptyObj : Object :=
  { name := ObjectT.NONE, num_onions := 0, num_tomatoes := 0, cooking_tick := -1 }

/-- struct PlayerState from sim.hpp: position, orientation and their
proposed counterparts are uint8_t (Nat kept below 256 by u8 at every
write), plus the held Object. -/
structure PlayerState : Type where
  position : Nat := 0
  orientation : Nat := 0
  proposed_position : Nat := 0
  proposed_orientation : Nat := 0
  held_object : Object := emptyObj
deriving DecidableEq

/-- PlayerState::has_object from sim.hpp. -/
def PlayerState.has_object (s : PlayerState) : Bool :=
  decide (s.held_object.name ≠ ObjectT.NONE)

/-- PlayerState::get_object from sim.hpp. -/
def PlayerState.get_object (s : PlayerState) : Object := s.held_object

/-- PlayerState::set_object from sim.hpp. -/
def PlayerState.set_object (s : PlayerState) (obj : Object) : PlayerState :=
  { s with held_object := obj }

/-- PlayerState::remove_object from sim.hpp: returns the held Object and
leaves the hands holding the empty Object. -/
def PlayerState.remove_object (s : PlayerState) : Object × PlayerState :=
  (s.held_object, { s with held_object := emptyObj })

/-- PlayerState::update_pos_and_or from sim.hpp. -/
def PlayerState.update_pos_and_or (s : PlayerState) : PlayerState :=
  { s with position := s.proposed_position, orientation := s.proposed_orientation }

/-- PlayerState::update_or from sim.hpp. -/
def PlayerState.update_or (s : PlayerState) : PlayerState :=
  { s with orientation := s.proposed_orientation }

/-- PlayerState::propose_pos_and_or from sim.hpp: int32 arguments stored
into uint8_t fields, hence the u8 reductions. -/
def PlayerState.propose_pos_and_or (s : PlayerState) (p o : Nat) : PlayerState :=
  { s with proposed_position := u8 p, proposed_orientation := u8 o }

/-- struct Config from sim.hpp: int64_t scalars and IntVector
(vector of int64_t) arrays, exactly as declared. -/
structure Config : Type where
  terrain : List Int
  height : Int
  width : Int
  num_players : Int
  start_player_x : List Int
  start_player_y : List Int
  placement_in_pot_rew : Int
  dish_pickup_rew : Int
  soup_pickup_rew : Int
  recipe_values : List Int
  recipe_times : List Int
  horizon : Int
deriving DecidableEq

/-- Decoding of a terrain code from the Config into TerrainT, following the
enum values of sim.hpp (0 = AIR .. 6 = SERVING). -/
def toTerrain (n : Int) : TerrainT :=
  if n = 1 then TerrainT.POT
  else if n = 2 then TerrainT.COUNTER
  else if n = 3 then TerrainT.ONION_SOURCE
  else if n = 4 then TerrainT.TOMATO_SOURCE
  else if n = 5 then TerrainT.DISH_SOURCE
  else if n = 6 then TerrainT.SERVING
  else TerrainT.AIR

/-- The per-world state, following struct WorldState of sim.hpp: per-cell
objects, timestep, size, terrain, dimensions, start positions, shaping
rewards, recipe tables, horizon and the reward accumulator. The uint8_t
fields are Nats kept below 256 by u8 at every write. The two PlayerState
components live in the Agent archetype in the source; the model keeps the
two player slots (MAX_NUM_PLAYERS = 2) inside the world record so that a
tick is a function on one record. -/
structure WorldState : Type where
  objects : List Object
  timestep : Int
  size : Nat
  num_players : Nat
  terrain : List TerrainT
  height : Nat
  width : Nat
  start_player_x : List Nat
  start_player_y : List Nat
  placement_in_pot_rew : Nat
  dish_pickup_rew : Nat
  soup_pickup_rew : Nat
  recipe_values : List Nat
  recipe_times : List Nat
  horizon : Int
  calculated_reward : Int
  player0 : PlayerState
  player1 : PlayerState
deriving DecidableEq

/-- Grid cell index of a configured start position: row times width plus
column (positions are a single uint8_t cell index in sim.hpp). -/
def startCell (w : WorldState) (i : Nat) : Nat :=
  u8 ((w.start_player_y.getD i 0) * w.width + w.start_player_x.getD i 0)

/-- A player standing at its configured start cell with empty hands. -/
def startPlayer (w : WorldState) (i : Nat) : PlayerState :=
  { position := startCell w i, orientation := 0,
    proposed_position := startCell w i, proposed_orientation := 0,
    held_object := emptyObj }

/-- A default-initialized PlayerState. -/
def emptyPlayer : PlayerState :=
  { position := 0, orientation := 0, proposed_position := 0,
    proposed_orientation := 0, held_object := emptyObj }

/-- Modelled from the spec: configuration-time validation performed by the
Sim constructor in sim.cpp (not among the supplied sources). Checks that
the terrain array length matches height times width, that height times
width fits the grid capacity MAX_SIZE, that the number of agents does not
exceed MAX_NUM_PLAYERS, that both recipe tables have exactly NUM_RECIPES
entries, and that every start position lies in bounds on a walkable cell. -/
def validConfig (cfg : Config) : Bool :=
  0 < cfg.height && 0 < cfg.width
    && cfg.height * cfg.width ≤ (MAX_SIZE : Int)
    && cfg.terrain.length = (cfg.height * cfg.width).toNat
    && 0 < cfg.num_players && cfg.num_players ≤ (MAX_NUM_PLAYERS : Int)
    && cfg.start_player_x.length = cfg.num_players.toNat
    && cfg.start_player_y.length = cfg.num_players.toNat
    && cfg.recipe_values.length = NUM_RECIPES
    && cfg.recipe_times.length = NUM_RECIPES
    && (List.range cfg.num_players.toNat).all (fun i =>
         0 ≤ cfg.start_player_x.getD i 0
           && cfg.start_player_x.getD i 0 < cfg.width
           && 0 ≤ cfg.start_player_y.getD i 0
           && cfg.start_player_y.getD i 0 < cfg.height
           && toTerrain (cfg.terrain.getD
                ((cfg.start_player_y.getD i 0).toNat * cfg.width.toNat
                  + (cfg.start_player_x.getD i 0).toNat) 0) = TerrainT.AIR)

/-- Modelled from the spec: world construction from a validated Config as
performed by the Sim constructor in sim.cpp (not among the supplied
sources). Copies the configuration into the uint8_t fields of WorldState
(with the modular reductions those assignments perform), clears all grid
objects, zeroes timestep and reward, and places the players at their start
cells. -/
def buildWorld (cfg : Config) : WorldState :=
  let base : WorldState :=
    { objects := List.replicate cfg.terrain.length emptyObj
      timestep := 0
      size := u8 (cfg.height * cfg.width).toNat
      num_players := u8 cfg.num_players.toNat
      terrain := cfg.terrain.map toTerrain
      height := u8 cfg.height.toNat
      width := u8 cfg.width.toNat
      start_player_x := cfg.start_player_x.map (fun x => u8 x.toNat)
      start_player_y := cfg.start_player_y.map (fun y => u8 y.toNat)
      placement_in_pot_rew := u8 cfg.placement_in_pot_rew.toNat
      dish_pickup_rew := u8 cfg.dish_pickup_rew.toNat
      soup_pickup_rew := u8 cfg.soup_pickup_rew.toNat
      recipe_values := cfg.recipe_values.map (fun v => u8 v.toNat)
      recipe_times := cfg.recipe_times.map (fun v => u8 v.toNat)
      horizon := cfg.horizon
      calculated_reward := 0
      player0 := emptyPlayer
      player1 := emptyPlayer }
  { base with player0 := startPlayer base 0, player1 := startPlayer base 1 }

/-- Modelled from the spec: world construction with its configuration
validation; an invalid configuration fails construction (no partial world
is created). -/
def mkWorld (cfg : Config) : Option WorldState :=
  if validConfig cfg then some (buildWorld cfg) else none

/-- The orientation code of a directional action, following the ActionT
enum values of sim.hpp (NORTH 0, SOUTH 1, EAST 2, WEST 3). -/
def dirOf (a : ActionT) : Nat :=
  match a with
  | ActionT.NORTH => 0
  | ActionT.SOUTH => 1
  | ActionT.EAST => 2
  | ActionT.WEST => 3
  | ActionT.STAY => 4
  | ActionT.INTERACT => 5

/-- Whether an action is one of the four directional moves. -/
def isDir (a : ActionT) : Bool :=
  match a with
  | ActionT.NORTH => true
  | ActionT.SOUTH => true
  | ActionT.EAST => true
  | ActionT.WEST => true
  | _ => false

/-- Modelled from the spec: the grid cell one step from position pos in
direction d (0 north, 1 south, 2 east, 3 west), none when the step leaves
the grid. Cells are indexed row-major, row = pos / width. -/
def cellTarget (w : WorldState) (pos : Nat) (d : Nat) : Option Nat :=
  let x := pos % w.width
  let y := pos / w.width
  match d with
  | 0 => if 0 < y then some (pos - w.width) else none
  | 1 => if y + 1 < w.height then some (pos + w.width) else none
  | 2 => if x + 1 < w.width then some (pos + 1) else none
  | 3 => if 0 < x then some (pos - 1) else none
  | _ => none

/-- Modelled from the spec: the propose phase of the movement resolver in
sim.cpp (not among the supplied sources). A directional action proposes the
one-step target cell and that orientation when the target is in bounds and
walkable terrain (AIR), ignoring other agents; a blocked directional action
proposes no position change but still the new orientation (bump turn);
STAY and INTERACT propose no change at all. -/
def proposeFor (w : WorldState) (p : PlayerState) (a : ActionT) : PlayerState :=
  if isDir a then
    match cellTarget w p.position (dirOf a) with
    | some c =>
        if w.terrain.getD c TerrainT.AIR = TerrainT.AIR then
          p.propose_pos_and_or c (dirOf a)
        else
          p.propose_pos_and_or p.position (dirOf a)
    | none => p.propose_pos_and_or p.position (dirOf a)
  else
    p.propose_pos_and_or p.position p.orientation

/-- Modelled from the spec: the commit phase of the movement resolver in
sim.cpp (not among the supplied sources), for the two player slots. When
both propose the same cell, the lower id (player 0) commits its move and
the other keeps its position but commits its orientation; a direct swap of
positions blocks both; otherwise each player commits unless its target is
occupied by the other player after the higher-priority commit. The
priority commit of player 0 against the standing position of player 1: -/
def commitFirst (p0 p1 : PlayerState) : PlayerState :=
  if p0.proposed_position = p1.position then p0.update_or else p0.update_pos_and_or

/-- The conflict resolution over both players, as described above. -/
def resolveMoves (p0 p1 : PlayerState) : PlayerState × PlayerState :=
  if p0.proposed_position = p1.proposed_position then
    (p0.update_pos_and_or, p1.update_or)
  else if p0.proposed_position = p1.position ∧ p1.proposed_position = p0.position then
    (p0.update_or, p1.update_or)
  else
    (commitFirst p0 p1,
     if p1.proposed_position = (commitFirst p0 p1).position then p1.update_or
     else p1.update_pos_and_or)

/-- Modelled from the spec: the full two-phase movement resolution for one
tick, from the committed state of the previous tick. -/
def movePhase (w : WorldState) (a0 a1 : ActionT) : PlayerState × PlayerState :=
  resolveMoves (proposeFor w w.player0 a0) (proposeFor w w.player1 a1)

/-- Modelled from the spec: adding one raw ingredient held by a player to
the pot Object obj (sim.cpp, not among the supplied sources). The pot
becomes a SOUP in progress; when the placement completes a valid recipe
composition (the ingredient cap MAX_NUM_INGREDIENTS is reached) cooking
starts: cooking_tick, an int8_t field per sim.hpp, receives the uint8_t
recipe_times table entry for the composition. -/
def potInsert (obj : Object) (ing : ObjectT) : Object :=
  { name := ObjectT.SOUP
    num_onions := if ing = ObjectT.ONION then u8 (obj.num_onions + 1) else obj.num_onions
    num_tomatoes := if ing = ObjectT.TOMATO then u8 (obj.num_tomatoes + 1) else obj.num_tomatoes
    cooking_tick := -1 }

/-- The whole placement: the insertion above, then the cooking start when
the composition is complete. -/
def potAddIngredient (obj : Object) (ing : ObjectT) (times : List Nat) : Object :=
  if (potInsert obj ing).num_ingredients = MAX_NUM_INGREDIENTS then
    { potInsert obj ing with
        cooking_tick := i8ofU8 (times.getD (potInsert obj ing).get_recipe 0) }
  else
    potInsert obj ing

/-- Modelled from the spec: the interaction resolver of sim.cpp (not among
the supplied sources) for one agent whose action is INTERACT, evaluated
against the faced cell: source pickup into empty hands, ingredient
placement into a pot that is below the cap and not cooking, soup pickup
with a dish from a ready pot, counter pickup and placement, and serving a
held soup with the recipe-value reward. Returns the updated world (objects
and reward accumulator) and the updated player. -/
def interactAt (w : WorldState) (p : PlayerState) : WorldState × PlayerState :=
  match cellTarget w p.position p.orientation with
  | none => (w, p)
  | some c =>
    match w.terrain.getD c TerrainT.AIR with
    | TerrainT.ONION_SOURCE =>
        if p.has_object then (w, p)
        else (w, p.set_object { emptyObj with name := ObjectT.ONION })
    | TerrainT.TOMATO_SOURCE =>
        if p.has_object then (w, p)
        else (w, p.set_object { emptyObj with name := ObjectT.TOMATO })
    | TerrainT.DISH_SOURCE =>
        if p.has_object then (w, p)
        else (w, p.set_object { emptyObj with name := ObjectT.DISH })
    | TerrainT.POT =>
        if (p.held_object.name = ObjectT.ONION ∨ p.held_object.name = ObjectT.TOMATO)
            ∧ (w.objects.getD c emptyObj).num_ingredients < MAX_NUM_INGREDIENTS ∧ (w.objects.getD c emptyObj).cooking_tick < 0 then
          ({ w with
              objects := w.objects.set c (potAddIngredient (w.objects.getD c emptyObj) p.held_object.name w.recipe_times)
              calculated_reward := w.calculated_reward + w.placement_in_pot_rew },
           (p.remove_object).2)
        else if p.held_object.name = ObjectT.DISH ∧ (w.objects.getD c emptyObj).name = ObjectT.SOUP
            ∧ (w.objects.getD c emptyObj).cooking_tick = 0 then
          ({ w with
              objects := w.objects.set c emptyObj
              calculated_reward := w.calculated_reward + w.dish_pickup_rew },
           p.set_object (w.objects.getD c emptyObj))
        else (w, p)
    | TerrainT.COUNTER =>
        if ¬ p.has_object ∧ (w.objects.getD c emptyObj).name ≠ ObjectT.NONE then
          ({ w with objects := w.objects.set c emptyObj }, p.set_object (w.objects.getD c emptyObj))
        else if p.has_object ∧ (w.objects.getD c emptyObj).name = ObjectT.NONE then
          ({ w with objects := w.objects.set c p.held_object }, (p.remove_object).2)
        else (w, p)
    | TerrainT.SERVING =>
        if p.held_object.name = ObjectT.SOUP then
          ({ w with
              calculated_reward := w.calculated_reward
                + w.recipe_values.getD p.held_object.get_recipe 0
                + w.soup_pickup_rew },
           (p.remove_object).2)
        else (w, p)
    | TerrainT.AIR => (w, p)

/-- Modelled from the spec: one tick of the pot cooking state machine for
one cell (sim.cpp, not among the supplied sources): a cooking pot (SOUP
with positive cooking progress on POT terrain) counts down by one;
everything else is untouched. -/
def cookCell (t : TerrainT) (o : Object) : Object :=
  if t = TerrainT.POT ∧ o.name = ObjectT.SOUP ∧ 0 < o.cooking_tick then
    { o with cooking_tick := o.cooking_tick - 1 }
  else o

/-- Pointwise cooking advance over the grid. -/
def cookAdvance : List TerrainT → List Object → List Object
  | t :: ts, o :: os => cookCell t o :: cookAdvance ts os
  | _, _ => []

/-- Modelled from the spec: the episode reset performed by the episode
controller (sim.cpp, not among the supplied sources): grid objects
cleared, players back at their configured start cells with empty hands,
timestep and reward accumulator zeroed. -/
def resetWorld (w : WorldState) : WorldState :=
  { w with
      objects := List.replicate w.terrain.length emptyObj
      timestep := 0
      calculated_reward := 0
      player0 := startPlayer w 0
      player1 := startPlayer w 1 }

/-- Apply the interaction of player 0 when its action is INTERACT. -/
def interactStep0 (w : WorldState) (a : ActionT) : WorldState :=
  if a = ActionT.INTERACT then
    { (interactAt w w.player0).1 with player0 := (interactAt w w.player0).2 }
  else w

/-- Apply the interaction of player 1 when its action is INTERACT. -/
def interactStep1 (w : WorldState) (a : ActionT) : WorldState :=
  if a = ActionT.INTERACT then
    { (interactAt w w.player1).1 with player1 := (interactAt w w.player1).2 }
  else w

/-- The committed movement of both players written back into the world,
with the reward accumulator zeroed for the new tick. -/
def moveApplied (w : WorldState) (a0 a1 : ActionT) : WorldState :=
  { w with
      calculated_reward := 0
      player0 := (movePhase w a0 a1).1
      player1 := (movePhase w a0 a1).2 }

/-- The cooking advance and timestep increment of one tick. -/
def cookApplied (w : WorldState) : WorldState :=
  { w with
      objects := cookAdvance w.terrain w.objects
      timestep := w.timestep + 1 }

/-- The tick before the episode-controller check: movement, interactions
in ascending agent id order, cooking advance, timestep increment. -/
def preTick (w : WorldState) (a0 a1 : ActionT) : WorldState :=
  cookApplied (interactStep1 (interactStep0 (moveApplied w a0 a1) a0) a1)

/-- Modelled from the spec: one full tick of the per-world transition
(sim.cpp, not among the supplied sources): zero the reward accumulator for
the tick, resolve movement with the two-phase protocol, resolve
interactions in ascending agent id order, advance every cooking pot,
increment the timestep, and reset the episode when the timestep reaches
the horizon. -/
def tick (w : WorldState) (a0 a1 : ActionT) : WorldState :=
  if (preTick w a0 a1).horizon ≤ (preTick w a0 a1).timestep then
    resetWorld (preTick w a0 a1)
  else preTick w a0 a1

/-- Numeric code of a terrain cell, for the observation encoding. -/
def terrainCode (t : TerrainT) : Int :=
  match t with
  | TerrainT.AIR => 0
  | TerrainT.POT => 1
  | TerrainT.COUNTER => 2
  | TerrainT.ONION_SOURCE => 3
  | TerrainT.TOMATO_SOURCE => 4
  | TerrainT.DISH_SOURCE => 5
  | TerrainT.SERVING => 6

/-- Numeric code of an object kind, for the observation encoding. -/
def objCode (o : ObjectT) : Int :=
  match o with
  | ObjectT.NONE => 0
  | ObjectT.TOMATO => 1
  | ObjectT.ONION => 2
  | ObjectT.DISH => 3
  | ObjectT.SOUP => 4

/-- Numeric encoding of one Object, for the observation encoding. -/
def encodeObject (o : Object) : List Int :=
  [objCode o.name, (o.num_onions : Int), (o.num_tomatoes : Int), o.cooking_tick]

/-- Numeric encoding of one PlayerState, for the observation encoding. -/
def encodePlayer (p : PlayerState) : List Int :=
  (p.position : Int) :: (p.orientation : Int) :: encodeObject p.held_object

/-- Modelled from the spec: the observation encoder of sim.cpp (not among
the supplied sources) serializes terrain, per-cell object state and both
player states into one fixed-order numeric vector, deterministically from
WorldState. -/
def obsOf (w : WorldState) : List Int :=
  w.terrain.map terrainCode
    ++ (w.objects.map encodeObject).flatten
    ++ encodePlayer w.player0 ++ encodePlayer w.player1

/-- The scalar team reward reported for a tick: the reward accumulator of
the world after the tick. -/
def rewOf (w : WorldState) : Int := w.calculated_reward

/-- The per-tick transition as a relation: s steps to t under a pair of
actions exactly when t is the tick function of s and the actions. -/
inductive Step : WorldState → ActionT × ActionT → WorldState → Prop where
  | step : ∀ (w : WorldState) (a : ActionT × ActionT), Step w a (tick w a.1 a.2)

/-- The observation and reward trace a run emits: one (observation, reward)
pair per tick, each produced by a Step of the transition relation. -/
inductive TraceRel : WorldState → List (ActionT × ActionT) → List (List Int × Int) → Prop where
  | nil : ∀ (w : WorldState), TraceRel w [] []
  | cons : ∀ (w u : WorldState) (a : ActionT × ActionT)
      (as : List (ActionT × ActionT)) (t : List (List Int × Int)),
      Step w a u → TraceRel u as t → TraceRel w (a :: as) ((obsOf u, rewOf u) :: t)

/-- The states of a world reachable from a configuration: the constructed
initial state and everything obtained from it by per-tick transitions. -/
inductive Reachable (cfg : Config) : WorldState → Prop where
  | init : ∀ (w : WorldState), mkWorld cfg = some w → Reachable cfg w
  | next : ∀ (w : WorldState) (a0 a1 : ActionT),
      Reachable cfg w → Reachable cfg (tick w a0 a1)

/-- The ingredient-count invariant of one Object. -/
def objInv (o : Object) : Prop :=
  o.num_onions + o.num_tomatoes ≤ MAX_NUM_INGREDIENTS

/-- Every Object a world contains: the two held objects and the per-cell
(and in particular per-pot) objects. -/
def WorldState.allObjects (w : WorldState) : List Object :=
  w.player0.held_object :: w.player1.held_object :: w.objects

/-- The ingredient-count invariant over a whole world. -/
def WorldState.inv (w : WorldState) : Prop :=
  ∀ o ∈ w.allObjects, objInv o

/-- A concrete valid configuration: a 2 by 2 all-AIR grid, two players at
opposite corners, uniform recipe tables. -/
def cfgA : Config :=
  { terrain := [0, 0, 0, 0]
    height := 2
    width := 2
    num_players := 2
    start_player_x := [0, 1]
    start_player_y := [0, 1]
    placement_in_pot_rew := 3
    dish_pickup_rew := 3
    soup_pickup_rew := 5
    recipe_values := List.replicate NUM_RECIPES 20
    recipe_times := List.replicate NUM_RECIPES 20
    horizon := 400 }

/-- The world built from cfgA. -/
def wA : WorldState := buildWorld cfgA

/-- A concrete valid configuration whose grid uses the full capacity:
16 by 16 all-AIR cells, so height times width equals MAX_SIZE = 256. -/
def cfg16 : Config :=
  { terrain := List.replicate 256 0
    height := 16
    width := 16
    num_players := 2
    start_player_x := [0, 1]
    start_player_y := [0, 0]
    placement_in_pot_rew := 3
    dish_pickup_rew := 3
    soup_pickup_rew := 5
    recipe_values := List.replicate NUM_RECIPES 20
    recipe_times := List.replicate NUM_RECIPES 20
    horizon := 400 }

/-- A recipe_times table whose entries all hold 200, a value representable
in the uint8_t table but not in the int8_t cooking_tick field. -/
def exTimes : List Nat := List.replicate NUM_RECIPES 200

/-- A pot Object holding two onions: adding one more onion completes the
three-ingredient recipe composition. -/
def potTwoOnions : Object :=
  { name := ObjectT.SOUP, num_onions := 2, num_tomatoes := 0, cooking_tick := -1 }

/-- The int8 reinterpretation of a uint8 value below 128 is the value. -/
theorem i8ofU8_of_le (n : Nat) (h : n ≤ 127) : i8ofU8 n = (n : Int) := by
  unfold i8ofU8
  rw [Nat.mod_eq_of_lt (show n < 256 by omega), if_pos (show n < 128 by omega)]

/-- Claim C1: for every Object satisfying the ingredient invariant, the
recipe index used for reward and time lookups equals
(MAX_NUM_INGREDIENTS + 1) * num_onions + num_tomatoes; in particular
get_recipe on an object with 2 onions and 1 tomato returns 9. -/
theorem get_recipe_index_correct :
    (∀ o : Object, o.num_onions + o.num_tomatoes ≤ MAX_NUM_INGREDIENTS →
      o.get_recipe = (MAX_NUM_INGREDIENTS + 1) * o.num_onions + o.num_tomatoes)
    ∧ Object.get_recipe
        { name := ObjectT.NONE, num_onions := 2, num_tomatoes := 1, cooking_tick := -1 }
        = 9 := by
  constructor
  · intro o h
    unfold MAX_NUM_INGREDIENTS at h
    unfold Object.get_recipe u8 MAX_NUM_INGREDIENTS
    omega
  · decide

/-- Witness for C1 at the concrete composition of 1 onion and 2 tomatoes. -/
theorem get_recipe_index_correct_witness :
    ({ name := ObjectT.SOUP, num_onions := 1, num_tomatoes := 2,
        cooking_tick := -1 } : Object).num_onions
      + ({ name := ObjectT.SOUP, num_onions := 1, num_tomatoes := 2,
            cooking_tick := -1 } : Object).num_tomatoes ≤ MAX_NUM_INGREDIENTS
    ∧ Object.get_recipe
        { name := ObjectT.SOUP, num_onions := 1, num_tomatoes := 2, cooking_tick := -1 }
        = (MAX_NUM_INGREDIENTS + 1) * 1 + 2 :=
  ⟨by decide, get_recipe_index_correct.1 _ (by decide)⟩

/-- Claim C7: has_object holds exactly when the held object kind is not
NONE, and after remove_object the hands hold the empty object (name NONE,
zero counts, cooking progress -1), so has_object is false. -/
theorem has_object_iff_and_remove_empties :
    ∀ s : PlayerState,
      (s.has_object = true ↔ s.held_object.name ≠ ObjectT.NONE)
      ∧ (s.remove_object).2.held_object.name = ObjectT.NONE
      ∧ (s.remove_object).2.held_object.num_onions = 0
      ∧ (s.remove_object).2.held_object.num_tomatoes = 0
      ∧ (s.remove_object).2.held_object.cooking_tick = -1
      ∧ (s.remove_object).2.has_object = false := by
  intro s
  refine ⟨?_, rfl, rfl, rfl, rfl, ?_⟩
  · simp [PlayerState.has_object]
  · simp [PlayerState.has_object, PlayerState.remove_object, emptyObj]

/-- Claim C8: for every Object with both ingredient counts at most
MAX_NUM_INGREDIENTS, get_recipe is strictly below NUM_RECIPES = 16, so the
recipe tables are never indexed out of bounds. -/
theorem get_recipe_lt_num_recipes :
    ∀ o : Object, o.num_onions ≤ MAX_NUM_INGREDIENTS →
      o.num_tomatoes ≤ MAX_NUM_INGREDIENTS → o.get_recipe < NUM_RECIPES := by
  intro o h1 h2
  unfold MAX_NUM_INGREDIENTS at h1 h2
  unfold Object.get_recipe u8 NUM_RECIPES MAX_NUM_INGREDIENTS
  omega

/-- Witness for C8 at the maximal composition of 3 onions and 3 tomatoes. -/
theorem get_recipe_lt_num_recipes_witness :
    ({ name := ObjectT.SOUP, num_onions := 3, num_tomatoes := 3,
        cooking_tick := -1 } : Object).num_onions ≤ MAX_NUM_INGREDIENTS
    ∧ ({ name := ObjectT.SOUP, num_onions := 3, num_tomatoes := 3,
          cooking_tick := -1 } : Object).num_tomatoes ≤ MAX_NUM_INGREDIENTS
    ∧ Object.get_recipe
        { name := ObjectT.SOUP, num_onions := 3, num_tomatoes := 3, cooking_tick := -1 }
        < NUM_RECIPES :=
  ⟨by decide, by decide, get_recipe_lt_num_recipes _ (by decide) (by decide)⟩

/-- Claim C9: set_object followed by remove_object returns the object
unchanged and leaves the hands empty. -/
theorem set_remove_roundtrip :
    ∀ (s : PlayerState) (obj : Object),
      ((s.set_object obj).remove_object).1 = obj
      ∧ ((s.set_object obj).remove_object).2.held_object = emptyObj
      ∧ ((s.set_object obj).remove_object).2.has_object = false := by
  intro s obj
  refine ⟨rfl, rfl, ?_⟩
  simp [PlayerState.has_object, PlayerState.remove_object, PlayerState.set_object, emptyObj]

/-- Claim C10: update_or commits only the orientation and
update_pos_and_or commits position and orientation; both leave the
proposed fields and the held object unchanged, and update_or also leaves
the position unchanged. -/
theorem update_or_frame :
    ∀ s : PlayerState,
      (s.update_or).orientation = s.proposed_orientation
      ∧ (s.update_or).position = s.position
      ∧ (s.update_or).proposed_position = s.proposed_position
      ∧ (s.update_or).proposed_orientation = s.proposed_orientation
      ∧ (s.update_or).held_object = s.held_object
      ∧ (s.update_pos_and_or).position = s.proposed_position
      ∧ (s.update_pos_and_or).orientation = s.proposed_orientation
      ∧ (s.update_pos_and_or).proposed_position = s.proposed_position
      ∧ (s.update_pos_and_or).proposed_orientation = s.proposed_orientation
      ∧ (s.update_pos_and_or).held_object = s.held_object :=
  fun _ => ⟨rfl, rfl, rfl, rfl, rfl, rfl, rfl, rfl, rfl, rfl⟩

/-- Claim C3 (amended): when an ingredient placement completes the recipe
composition and the pot starts cooking, cooking_tick receives the int8
reinterpretation of the uint8 recipe_times entry for the composition; this
equals the entry exactly when the entry is at most 127, the int8_t range
of the cooking_tick field declared in sim.hpp. -/
theorem potAdd_cooking_tick_value :
    ∀ (obj : Object) (ing : ObjectT) (times : List Nat),
      (ing = ObjectT.ONION ∨ ing = ObjectT.TOMATO) →
      obj.num_onions + obj.num_tomatoes + 1 = MAX_NUM_INGREDIENTS →
      (potAddIngredient obj ing times).cooking_tick
          = i8ofU8 (times.getD ((potAddIngredient obj ing times).get_recipe) 0)
      ∧ (times.getD ((potAddIngredient obj ing times).get_recipe) 0 ≤ 127 →
          (potAddIngredient obj ing times).cooking_tick
            = ((times.getD ((potAddIngredient obj ing times).get_recipe) 0 : Nat) : Int)) := by
  intro obj ing times hing hsum
  unfold MAX_NUM_INGREDIENTS at hsum
  have key : (potAddIngredient obj ing times).cooking_tick
      = i8ofU8 (times.getD ((potAddIngredient obj ing times).get_recipe) 0) := by
    have hcond : (potInsert obj ing).num_ingredients = MAX_NUM_INGREDIENTS := by
      rcases hing with h | h <;> subst h <;>
        · simp [potInsert, Object.num_ingredients, u8, MAX_NUM_INGREDIENTS]
          omega
    unfold potAddIngredient
    rw [if_pos hcond]
    simp [Object.get_recipe]
  exact ⟨key, fun he => key.trans (i8ofU8_of_le _ he)⟩

/-- Witness for C3 (amended) at a pot with two onions and a table whose
entries hold 20. -/
theorem potAdd_cooking_tick_value_witness :
    (potTwoOnions.num_onions + potTwoOnions.num_tomatoes + 1 = MAX_NUM_INGREDIENTS)
    ∧ (potAddIngredient potTwoOnions ObjectT.ONION (List.replicate NUM_RECIPES 20)).cooking_tick
        = (((List.replicate NUM_RECIPES 20).getD
            ((potAddIngredient potTwoOnions ObjectT.ONION
              (List.replicate NUM_RECIPES 20)).get_recipe) 0 : Nat) : Int) :=
  ⟨by decide,
    (potAdd_cooking_tick_value potTwoOnions ObjectT.ONION (List.replicate NUM_RECIPES 20)
      (Or.inl rfl) (by decide)).2 (by decide)⟩

/-- Counterexample for C3 as stated: with the recipe_times entry 200 — a
representable uint8_t table value — completing the recipe sets
cooking_tick to -56, not 200, because cooking_tick is an int8_t. -/
theorem cooking_tick_truncation_cex :
    potTwoOnions.num_onions + potTwoOnions.num_tomatoes + 1 = MAX_NUM_INGREDIENTS
    ∧ exTimes.getD ((potAddIngredient potTwoOnions ObjectT.ONION exTimes).get_recipe) 0 = 200
    ∧ (potAddIngredient potTwoOnions ObjectT.ONION exTimes).cooking_tick = -56
    ∧ (potAddIngredient potTwoOnions ObjectT.ONION exTimes).cooking_tick
        ≠ ((exTimes.getD ((potAddIngredient potTwoOnions ObjectT.ONION exTimes).get_recipe) 0
            : Nat) : Int) := by
  refine ⟨by decide, by decide, by decide, by decide⟩

/-- Claim C6 (amended): an accepted configuration has height times width
at most MAX_SIZE and a terrain array of exactly that length, and the
constructed size field holds height times width reduced modulo 256 (the
field is uint8_t), which equals height times width whenever the product is
below 256. -/
theorem mkWorld_dims :
    ∀ (cfg : Config) (w : WorldState), mkWorld cfg = some w →
      cfg.height * cfg.width ≤ (MAX_SIZE : Int)
      ∧ cfg.terrain.length = (cfg.height * cfg.width).toNat
      ∧ w.terrain.length = (cfg.height * cfg.width).toNat
      ∧ w.size = u8 (cfg.height * cfg.width).toNat
      ∧ ((cfg.height * cfg.width).toNat < 256 →
          w.size = (cfg.height * cfg.width).toNat) := by
  intro cfg w h
  unfold mkWorld at h
  split at h
  case isTrue hv =>
    injection h with h
    subst h
    simp only [validConfig, Bool.and_eq_true, decide_eq_true_eq] at hv
    obtain ⟨⟨⟨⟨⟨⟨⟨⟨⟨⟨_, _⟩, hcap⟩, hlen⟩, _⟩, _⟩, _⟩, _⟩, _⟩, _⟩, _⟩ := hv
    refine ⟨hcap, hlen, ?_, rfl, ?_⟩
    · simp [buildWorld, hlen]
    · intro hlt
      show u8 (cfg.height * cfg.width).toNat = _
      unfold u8
      omega
  case isFalse =>
    exact absurd h (by simp)

/-- Witness for C6 (amended) at the concrete configuration cfgA. -/
theorem mkWorld_dims_witness :
    mkWorld cfgA = some wA ∧ wA.size = (cfgA.height * cfgA.width).toNat :=
  ⟨by decide, (mkWorld_dims cfgA wA (by decide)).2.2.2.2 (by decide)⟩

/-- Counterexample for C6 as stated: the 16 by 16 configuration cfg16 is
accepted (height times width equals the capacity 256 exactly), but the
constructed uint8_t size field holds 0, not 256. -/
theorem world_size_field_cex :
    mkWorld cfg16 = some (buildWorld cfg16)
    ∧ cfg16.height * cfg16.width = 256
    ∧ (buildWorld cfg16).size = 0
    ∧ (buildWorld cfg16).size ≠ (cfg16.height * cfg16.width).toNat := by
  have hv : validConfig cfg16 = true := by decide
  refine ⟨by unfold mkWorld; rw [hv]; rfl, by decide, rfl, by decide⟩

/-- Orientation codes are below 256, so the uint8_t store keeps them. -/
theorem dirOf_lt (a : ActionT) : dirOf a < 256 := by
  cases a <;> decide

/-- Claim C4: when both agents choose directional actions targeting the
same currently empty walkable cell, after the movement commit the lower-id
agent (player 0) occupies that cell and only it does; the other agent
keeps its previous position while its orientation becomes the direction it
attempted to move. -/
theorem same_target_lower_id_wins :
    ∀ (w : WorldState) (a0 a1 : ActionT) (c : Nat),
      isDir a0 = true → isDir a1 = true →
      cellTarget w w.player0.position (dirOf a0) = some c →
      cellTarget w w.player1.position (dirOf a1) = some c →
      w.terrain.getD c TerrainT.AIR = TerrainT.AIR →
      c < 256 →
      c ≠ w.player1.position →
      (movePhase w a0 a1).1.position = c
      ∧ (movePhase w a0 a1).2.position = w.player1.position
      ∧ (movePhase w a0 a1).2.position ≠ c
      ∧ (movePhase w a0 a1).2.orientation = dirOf a1 := by
  intro w a0 a1 c h0 h1 hc0 hc1 ht hlt hne
  have e0 : proposeFor w w.player0 a0 = w.player0.propose_pos_and_or c (dirOf a0) := by
    unfold proposeFor
    rw [h0, hc0, if_pos rfl]
    show (if w.terrain.getD c TerrainT.AIR = TerrainT.AIR then
            w.player0.propose_pos_and_or c (dirOf a0)
          else w.player0.propose_pos_and_or w.player0.position (dirOf a0))
        = w.player0.propose_pos_and_or c (dirOf a0)
    rw [if_pos ht]
  have e1 : proposeFor w w.player1 a1 = w.player1.propose_pos_and_or c (dirOf a1) := by
    unfold proposeFor
    rw [h1, hc1, if_pos rfl]
    show (if w.terrain.getD c TerrainT.AIR = TerrainT.AIR then
            w.player1.propose_pos_and_or c (dirOf a1)
          else w.player1.propose_pos_and_or w.player1.position (dirOf a1))
        = w.player1.propose_pos_and_or c (dirOf a1)
    rw [if_pos ht]
  unfold movePhase
  rw [e0, e1]
  unfold resolveMoves
  rw [if_pos (show (w.player0.propose_pos_and_or c (dirOf a0)).proposed_position
        = (w.player1.propose_pos_and_or c (dirOf a1)).proposed_position from rfl)]
  refine ⟨?_, rfl, ?_, ?_⟩
  · show u8 c = c
    exact Nat.mod_eq_of_lt hlt
  · show w.player1.position ≠ c
    exact fun h => hne h.symm
  · show u8 (dirOf a1) = dirOf a1
    exact Nat.mod_eq_of_lt (dirOf_lt a1)

/-- Witness for C4: in the 2 by 2 world wA, player 0 at cell 0 moves EAST
and player 1 at cell 3 moves NORTH, both targeting the empty cell 1;
player 0 wins the cell and player 1 stays put, turned north. -/
theorem same_target_lower_id_wins_witness :
    isDir ActionT.EAST = true
    ∧ isDir ActionT.NORTH = true
    ∧ cellTarget wA wA.player0.position (dirOf ActionT.EAST) = some 1
    ∧ cellTarget wA wA.player1.position (dirOf ActionT.NORTH) = some 1
    ∧ wA.terrain.getD 1 TerrainT.AIR = TerrainT.AIR
    ∧ (1 : Nat) < 256
    ∧ (1 : Nat) ≠ wA.player1.position
    ∧ (movePhase wA ActionT.EAST ActionT.NORTH).1.position = 1
    ∧ (movePhase wA ActionT.EAST ActionT.NORTH).2.position = wA.player1.position
    ∧ (movePhase wA ActionT.EAST ActionT.NORTH).2.orientation = dirOf ActionT.NORTH := by
  have h := same_target_lower_id_wins wA ActionT.EAST ActionT.NORTH 1 (by decide) (by decide)
    (by decide) (by decide) (by decide) (by decide) (by decide)
  exact ⟨by decide, by decide, by decide, by decide, by decide, by decide, by decide,
    h.1, h.2.1, h.2.2.2⟩

/-- The per-tick transition relation is a function of the prior state and
the actions. -/
theorem step_fun : ∀ (w : WorldState) (a : ActionT × ActionT) (s1 s2 : WorldState),
    Step w a s1 → Step w a s2 → s1 = s2 := by
  intro w a s1 s2 h1 h2
  cases h1
  cases h2
  rfl

/-- Claim C5: from the same state under the same action sequence, any two
runs emit identical observation and reward traces — the per-tick
transition and both outputs are deterministic functions of WorldState and
the actions. -/
theorem trace_deterministic :
    ∀ (w : WorldState) (acts : List (ActionT × ActionT))
      (t1 t2 : List (List Int × Int)),
      TraceRel w acts t1 → TraceRel w acts t2 → t1 = t2 := by
  intro w acts t1 t2 h1 h2
  induction h1 generalizing t2 with
  | nil _ =>
      cases h2
      rfl
  | cons w u a as t hstep htr ih =>
      cases h2 with
      | cons _ u2 _ _ t2b hstep2 htr2 =>
          cases hstep
          cases hstep2
          rw [ih _ htr2]

/-- Witness for C5: two one-tick runs of the world wA under the action
pair (STAY, STAY) emit the same trace. -/
theorem trace_deterministic_witness :
    [(obsOf (tick wA ActionT.STAY ActionT.STAY), rewOf (tick wA ActionT.STAY ActionT.STAY))]
      = [(obsOf (tick wA ActionT.STAY ActionT.STAY),
          rewOf (tick wA ActionT.STAY ActionT.STAY))] :=
  trace_deterministic wA [(ActionT.STAY, ActionT.STAY)] _ _
    (TraceRel.cons _ _ _ _ _ (Step.step wA (ActionT.STAY, ActionT.STAY)) (TraceRel.nil _))
    (TraceRel.cons _ _ _ _ _ (Step.step wA (ActionT.STAY, ActionT.STAY)) (TraceRel.nil _))

/-- A predicate holding on all entries of a list and on the written value
holds on all entries after a set. -/
theorem pred_of_mem_set {α : Type} {P : α → Prop} :
    ∀ (l : List α) (i : Nat) (a : α), (∀ x ∈ l, P x) → P a →
      ∀ x ∈ l.set i a, P x := by
  intro l
  induction l with
  | nil =>
      intro i a _ _ x hx
      simp [List.set] at hx
  | cons b bs ih =>
      intro i a hl ha x hx
      cases i with
      | zero =>
          rcases List.mem_cons.mp hx with h | h
          · exact h ▸ ha
          · exact hl x (List.mem_cons_of_mem b h)
      | succ n =>
          rcases List.mem_cons.mp hx with h | h
          · exact h ▸ hl b (List.mem_cons_self b bs)
          · exact ih n a (fun y hy => hl y (List.mem_cons_of_mem b hy)) ha x h

/-- A predicate holding on all entries of a list and on the default holds
on a getD lookup. -/
theorem pred_getD {α : Type} {P : α → Prop} :
    ∀ (l : List α) (i : Nat) (d : α), (∀ x ∈ l, P x) → P d → P (l.getD i d) := by
  intro l
  induction l with
  | nil =>
      intro i d _ hd
      simpa [List.getD] using hd
  | cons b bs ih =>
      intro i d hl hd
      cases i with
      | zero => simpa using hl b (List.mem_cons_self b bs)
      | succ n =>
          rw [List.getD_cons_succ]
          exact ih n d (fun y hy => hl y (List.mem_cons_of_mem b hy)) hd

/-- A predicate holding on the replicated value holds on every entry of a
replicate list. -/
theorem pred_replicate {α : Type} {P : α → Prop} (n : Nat) (a : α) (ha : P a) :
    ∀ x ∈ List.replicate n a, P x := by
  induction n with
  | zero => intro x hx; simp [List.replicate] at hx
  | succ m ih =>
      intro x hx
      rcases List.mem_cons.mp hx with h | h
      · exact h ▸ ha
      · exact ih x h

/-- The empty object satisfies the ingredient invariant. -/
theorem objInv_emptyObj : objInv emptyObj := by
  show (0 : Nat) + 0 ≤ MAX_NUM_INGREDIENTS
  decide

/-- A freshly picked-up source item satisfies the ingredient invariant. -/
theorem objInv_source (nm : ObjectT) : objInv { emptyObj with name := nm } := by
  show (0 : Nat) + 0 ≤ MAX_NUM_INGREDIENTS
  decide

/-- The cooking advance of a cell keeps the ingredient invariant. -/
theorem objInv_cookCell (t : TerrainT) (o : Object) (h : objInv o) :
    objInv (cookCell t o) := by
  unfold cookCell
  split
  · exact h
  · exact h

/-- The pointwise cooking advance keeps the ingredient invariant. -/
theorem cookAdvance_inv : ∀ (ts : List TerrainT) (os : List Object),
    (∀ o ∈ os, objInv o) → ∀ o ∈ cookAdvance ts os, objInv o := by
  intro ts
  induction ts with
  | nil =>
      intro os h o ho
      simp [cookAdvance] at ho
  | cons t ts ih =>
      intro os h o ho
      cases os with
      | nil => simp [cookAdvance] at ho
      | cons b bs =>
          rw [show cookAdvance (t :: ts) (b :: bs)
                = cookCell t b :: cookAdvance ts bs from rfl] at ho
          rcases List.mem_cons.mp ho with h1 | h1
          · exact h1 ▸ objInv_cookCell t b (h b (List.mem_cons_self b bs))
          · exact ih bs (fun y hy => h y (List.mem_cons_of_mem b hy)) o h1

/-- The ingredient counts of a pot after an ingredient is added. -/
theorem potAdd_counts (obj : Object) (ing : ObjectT) (times : List Nat) :
    (potAddIngredient obj ing times).num_onions
        = (if ing = ObjectT.ONION then u8 (obj.num_onions + 1) else obj.num_onions)
    ∧ (potAddIngredient obj ing times).num_tomatoes
        = (if ing = ObjectT.TOMATO then u8 (obj.num_tomatoes + 1) else obj.num_tomatoes) := by
  unfold potAddIngredient
  refine ⟨?_, ?_⟩ <;> split <;> rfl

/-- Adding an ingredient to a pot below the cap keeps the ingredient
invariant. -/
theorem potAdd_inv (obj : Object) (ing : ObjectT) (times : List Nat)
    (h1 : objInv obj) (h2 : obj.num_ingredients < MAX_NUM_INGREDIENTS) :
    objInv (potAddIngredient obj ing times) := by
  have hc := potAdd_counts obj ing times
  unfold objInv MAX_NUM_INGREDIENTS at h1 ⊢
  unfold Object.num_ingredients u8 MAX_NUM_INGREDIENTS at h2
  rw [hc.1, hc.2]
  cases ing <;> simp [u8] <;> omega

/-- The proposal phase never touches the held object. -/
theorem proposeFor_held (w : WorldState) (p : PlayerState) (a : ActionT) :
    (proposeFor w p a).held_object = p.held_object := by
  unfold proposeFor PlayerState.propose_pos_and_or
  split
  · split
    · split <;> rfl
    · rfl
  · rfl

/-- The priority commit never touches the held object. -/
theorem commitFirst_held (p0 p1 : PlayerState) :
    (commitFirst p0 p1).held_object = p0.held_object := by
  unfold commitFirst PlayerState.update_or PlayerState.update_pos_and_or
  split <;> rfl

/-- The conflict resolution never touches the held objects. -/
theorem resolveMoves_held (p0 p1 : PlayerState) :
    ((resolveMoves p0 p1).1.held_object = p0.held_object)
    ∧ ((resolveMoves p0 p1).2.held_object = p1.held_object) := by
  unfold resolveMoves
  split
  · exact ⟨rfl, rfl⟩
  · split
    · exact ⟨rfl, rfl⟩
    · exact ⟨commitFirst_held p0 p1, by split <;> rfl⟩

/-- The movement phase never touches the held objects. -/
theorem movePhase_held (w : WorldState) (a0 a1 : ActionT) :
    ((movePhase w a0 a1).1.held_object = w.player0.held_object)
    ∧ ((movePhase w a0 a1).2.held_object = w.player1.held_object) := by
  unfold movePhase
  refine ⟨?_, ?_⟩
  · exact (resolveMoves_held _ _).1.trans (proposeFor_held w w.player0 a0)
  · exact (resolveMoves_held _ _).2.trans (proposeFor_held w w.player1 a1)

/-- The interaction of one agent keeps the ingredient invariant on the
grid objects and on the held object, and does not touch the player slots
stored in the returned world. -/
theorem interactAt_spec (w : WorldState) (p : PlayerState)
    (hw : ∀ o ∈ w.objects, objInv o) (hp : objInv p.held_object) :
    (∀ o ∈ (interactAt w p).1.objects, objInv o)
    ∧ objInv (interactAt w p).2.held_object
    ∧ (interactAt w p).1.player0 = w.player0
    ∧ (interactAt w p).1.player1 = w.player1 := by
  unfold interactAt
  split
  · exact ⟨hw, hp, rfl, rfl⟩
  · rename_i c heq
    have hobj : objInv (w.objects.getD c emptyObj) :=
      pred_getD _ _ _ hw objInv_emptyObj
    split
    · split
      · exact ⟨hw, hp, rfl, rfl⟩
      · exact ⟨hw, objInv_source ObjectT.ONION, rfl, rfl⟩
    · split
      · exact ⟨hw, hp, rfl, rfl⟩
      · exact ⟨hw, objInv_source ObjectT.TOMATO, rfl, rfl⟩
    · split
      · exact ⟨hw, hp, rfl, rfl⟩
      · exact ⟨hw, objInv_source ObjectT.DISH, rfl, rfl⟩
    · split
      · rename_i hcond
        exact ⟨pred_of_mem_set _ _ _ hw (potAdd_inv _ _ _ hobj hcond.2.1),
          objInv_emptyObj, rfl, rfl⟩
      · split
        · exact ⟨pred_of_mem_set _ _ _ hw objInv_emptyObj, hobj, rfl, rfl⟩
        · exact ⟨hw, hp, rfl, rfl⟩
    · split
      · exact ⟨pred_of_mem_set _ _ _ hw objInv_emptyObj, hobj, rfl, rfl⟩
      · split
        · exact ⟨pred_of_mem_set _ _ _ hw hp, objInv_emptyObj, rfl, rfl⟩
        · exact ⟨hw, hp, rfl, rfl⟩
    · split
      · exact ⟨hw, objInv_emptyObj, rfl, rfl⟩
      · exact ⟨hw, hp, rfl, rfl⟩
    · exact ⟨hw, hp, rfl, rfl⟩

/-- The world invariant decomposes into the two held objects and the grid
objects. -/
theorem inv_parts (s : WorldState) :
    s.inv ↔ objInv s.player0.held_object ∧ objInv s.player1.held_object
      ∧ ∀ o ∈ s.objects, objInv o := by
  unfold WorldState.inv WorldState.allObjects
  constructor
  · intro h
    exact ⟨h _ (List.mem_cons_self _ _),
      h _ (List.mem_cons_of_mem _ (List.mem_cons_self _ _)),
      fun o ho => h o (List.mem_cons_of_mem _ (List.mem_cons_of_mem _ ho))⟩
  · rintro ⟨h0, h1, h2⟩ o ho
    rcases List.mem_cons.mp ho with h | ho2
    · exact h ▸ h0
    · rcases List.mem_cons.mp ho2 with h | h3
      · exact h ▸ h1
      · exact h2 o h3

/-- The movement stage keeps the world invariant. -/
theorem moveApplied_inv (w : WorldState) (a0 a1 : ActionT) (h : w.inv) :
    (moveApplied w a0 a1).inv := by
  rw [inv_parts] at h ⊢
  obtain ⟨h0, h1, h2⟩ := h
  refine ⟨?_, ?_, h2⟩
  · show objInv (movePhase w a0 a1).1.held_object
    rw [(movePhase_held w a0 a1).1]
    exact h0
  · show objInv (movePhase w a0 a1).2.held_object
    rw [(movePhase_held w a0 a1).2]
    exact h1

/-- The interaction stage of player 0 keeps the world invariant. -/
theorem interactStep0_inv (w : WorldState) (a : ActionT) (h : w.inv) :
    (interactStep0 w a).inv := by
  rw [inv_parts] at h
  obtain ⟨h0, h1, h2⟩ := h
  unfold interactStep0
  split
  · have spec := interactAt_spec w w.player0 h2 h0
    rw [inv_parts]
    refine ⟨spec.2.1, ?_, spec.1⟩
    show objInv (interactAt w w.player0).1.player1.held_object
    rw [spec.2.2.2]
    exact h1
  · rw [inv_parts]
    exact ⟨h0, h1, h2⟩

/-- The interaction stage of player 1 keeps the world invariant. -/
theorem interactStep1_inv (w : WorldState) (a : ActionT) (h : w.inv) :
    (interactStep1 w a).inv := by
  rw [inv_parts] at h
  obtain ⟨h0, h1, h2⟩ := h
  unfold interactStep1
  split
  · have spec := interactAt_spec w w.player1 h2 h1
    rw [inv_parts]
    refine ⟨?_, spec.2.1, spec.1⟩
    show objInv (interactAt w w.player1).1.player0.held_object
    rw [spec.2.2.1]
    exact h0
  · rw [inv_parts]
    exact ⟨h0, h1, h2⟩

/-- The cooking stage keeps the world invariant. -/
theorem cookApplied_inv (w : WorldState) (h : w.inv) : (cookApplied w).inv := by
  rw [inv_parts] at h ⊢
  exact ⟨h.1, h.2.1, cookAdvance_inv w.terrain w.objects h.2.2⟩

/-- An episode reset establishes the world invariant outright. -/
theorem resetWorld_inv (w : WorldState) : (resetWorld w).inv := by
  rw [inv_parts]
  exact ⟨objInv_emptyObj, objInv_emptyObj,
    pred_replicate w.terrain.length emptyObj objInv_emptyObj⟩

/-- A constructed world satisfies the invariant outright. -/
theorem buildWorld_inv (cfg : Config) : (buildWorld cfg).inv := by
  rw [inv_parts]
  refine ⟨objInv_emptyObj, objInv_emptyObj, ?_⟩
  show ∀ o ∈ List.replicate cfg.terrain.length emptyObj, objInv o
  exact pred_replicate cfg.terrain.length emptyObj objInv_emptyObj

/-- One tick keeps the world invariant. -/
theorem tick_inv (w : WorldState) (a0 a1 : ActionT) (h : w.inv) :
    (tick w a0 a1).inv := by
  unfold tick
  split
  · exact resetWorld_inv _
  · exact cookApplied_inv _
      (interactStep1_inv _ _ (interactStep0_inv _ _ (moveApplied_inv _ _ _ h)))

/-- Claim C2: in every reachable state — the constructed initial state and
anything obtained from it by ticks — every Object of the world (both held
objects and every per-cell, hence per-pot, object) has
num_onions + num_tomatoes at most MAX_NUM_INGREDIENTS. -/
theorem reachable_objects_ingredient_bound :
    ∀ (cfg : Config) (w : WorldState), Reachable cfg w →
      ∀ o ∈ w.allObjects, o.num_onions + o.num_tomatoes ≤ MAX_NUM_INGREDIENTS := by
  intro cfg w h
  have hinv : w.inv := by
    induction h with
    | init v hv =>
        unfold mkWorld at hv
        split at hv
        · injection hv with hv
          subst hv
          exact buildWorld_inv cfg
        · exact absurd hv (by simp)
    | next v a0 a1 hr ih => exact tick_inv v a0 a1 ih
  exact hinv

/-- Witness for C2 at the initial state of the configuration cfgA. -/
theorem reachable_objects_ingredient_bound_witness :
    wA.player0.held_object.num_onions + wA.player0.held_object.num_tomatoes
      ≤ MAX_NUM_INGREDIENTS :=
  reachable_objects_ingredient_bound cfgA wA
    (Reachable.init wA (by decide)) wA.player0.held_object
    (List.mem_cons_self _ _)

end Overcooked
